import Mathlib

/-
Verification of the repository's single source file,
src/cloudComputing/AWS/solutions/event-driven_scp_attachment/diagram/
event-driven_scp_attachment_architecture_diagram.py.

The script is a straight-line Python program that builds a fixed diagram
description with the `diagrams` library and renders it once.  We embed it
shallowly: a small statement language (rich enough to express loops,
suspension points, node mutation and input reads, none of which the script
uses), an interpreter that builds the graph description, and the literal
statement-by-statement translation of the script.  The external rendering
backend's observable behaviour (which file it writes, whether it opens a
viewer) is modelled from the spec, since the `diagrams` library is not part
of the repository.
-/

namespace SCPDiag

/-- The ambient input a Python script could read: command-line arguments,
environment variables, and persisted files.  The source script reads none
of these; the embedding threads them through so that this is a theorem,
not a modelling assumption. -/
structure ScriptInput where
  argv : List String
  env : List (String × String)
  persisted : List (String × String)
deriving DecidableEq, Repr

/-- The six node identifiers bound by the script (its Python variable names). -/
inductive NodeId
  | org
  | new_account
  | cloudtrail
  | s3
  | event_bridge
  | lambda_func
deriving DecidableEq, Repr

/-- A string expression: either a literal, or one of the input-reading forms
a Python script could use.  The source script only ever uses literals. -/
inductive StrExpr
  | lit (s : String)
  | argvAt (n : Nat)
  | envVar (name : String)
  | fileRead (path : String)
deriving DecidableEq, Repr

/-- Evaluate a string expression against the ambient input. -/
def evalStr (i : ScriptInput) : StrExpr → String
  | StrExpr.lit s => s
  | StrExpr.argvAt n => (i.argv.getD n "")
  | StrExpr.envVar name => ((i.env.lookup name).getD "")
  | StrExpr.fileRead path => ((i.persisted.lookup path).getD "")

/-- Whether a string expression reads any ambient input. -/
def usesInput : StrExpr → Bool
  | StrExpr.lit _ => false
  | StrExpr.argvAt _ => true
  | StrExpr.envVar _ => true
  | StrExpr.fileRead _ => true

/-- A declared node: its identifier, the `diagrams` icon class used
(e.g. `Organizations`), and its display label. -/
structure NodeDecl where
  id : NodeId
  icon : String
  label : String
deriving DecidableEq, Repr

/-- A declared edge: its two endpoints, whether it is directed
(Python `>>`) or undirected (Python `-`), and the optional
style / color / label attributes passed to `Edge(...)`. -/
structure EdgeDecl where
  src : NodeId
  dst : NodeId
  directed : Bool
  style : Option String
  color : Option String
  label : Option String
deriving DecidableEq, Repr

/-- A declared cluster: its display name and the node ids declared inside
its `with Cluster(...)` block, in declaration order. -/
structure ClusterDecl where
  name : String
  members : List NodeId
deriving DecidableEq, Repr

/-- The graph-description state accumulated while the `with Diagram` body
runs: nodes, edges and clusters in declaration order. -/
structure GState where
  nodes : List NodeDecl
  edges : List EdgeDecl
  clusters : List ClusterDecl
deriving DecidableEq, Repr

def emptyState : GState := ⟨[], [], []⟩

/-- Statements of the embedded script language.  `declNode`, `connect` and
`inCluster` are what the source script uses; `setLabel` (attribute mutation),
`whileLoop` and `suspend` (an `await`-style suspension point) exist in the
language so that their absence from the script is a checkable property. -/
inductive Stmt
  | skip
  | seq (a b : Stmt)
  | declNode (id : NodeId) (icon : String) (label : StrExpr)
  | connect (src dst : NodeId) (directed : Bool)
      (style : Option String) (color : Option String) (label : Option StrExpr)
  | inCluster (name : String) (body : Stmt)
  | setLabel (id : NodeId) (label : StrExpr)
  | whileLoop (cond : Bool) (body : Stmt)
  | suspend
deriving DecidableEq, Repr

/-- Sequence a list of statements. -/
def block : List Stmt → Stmt
  | [] => Stmt.skip
  | s :: rest => Stmt.seq s (block rest)

/-- Add a node id to the members of the named cluster. -/
def addToCluster (c : String) (id : NodeId) : List ClusterDecl → List ClusterDecl
  | [] => []
  | cd :: rest =>
    if cd.name = c then { cd with members := cd.members ++ [id] } :: rest
    else cd :: addToCluster c id rest

/-- Replace the label of the named node. -/
def relabel (id : NodeId) (l : String) : List NodeDecl → List NodeDecl
  | [] => []
  | nd :: rest =>
    if nd.id = id then { nd with label := l } :: rest
    else nd :: relabel id l rest

/-- Interpreter for the statement language.  `cl` is the enclosing cluster,
if any.  A `whileLoop` whose (constant) condition is true never terminates
and a `suspend` never resumes in one pass; both are modelled as `none`. -/
def exec (i : ScriptInput) (cl : Option String) (s : GState) : Stmt → Option GState
  | Stmt.skip => some s
  | Stmt.seq a b => (exec i cl s a).bind fun s' => exec i cl s' b
  | Stmt.declNode id icon label =>
    some { nodes := s.nodes ++ [⟨id, icon, evalStr i label⟩]
           edges := s.edges
           clusters :=
             match cl with
             | none => s.clusters
             | some c => addToCluster c id s.clusters }
  | Stmt.connect a b d st co la =>
    some { s with edges := s.edges ++ [⟨a, b, d, st, co, la.map (evalStr i)⟩] }
  | Stmt.inCluster name body =>
    exec i (some name) { s with clusters := s.clusters ++ [⟨name, []⟩] } body
  | Stmt.setLabel id l => some { s with nodes := relabel id (evalStr i l) s.nodes }
  | Stmt.whileLoop c _ => if c then none else some s
  | Stmt.suspend => none

/-- Whether a statement reads any ambient input. -/
def readsInput : Stmt → Bool
  | Stmt.skip => false
  | Stmt.seq a b => readsInput a || readsInput b
  | Stmt.declNode _ _ l => usesInput l
  | Stmt.connect _ _ _ _ _ la =>
    match la with
    | none => false
    | some l => usesInput l
  | Stmt.inCluster _ b => readsInput b
  | Stmt.setLabel _ l => usesInput l
  | Stmt.whileLoop _ b => readsInput b
  | Stmt.suspend => false

/-- Whether a statement is straight-line: no loops and no suspension points. -/
def straightLine : Stmt → Bool
  | Stmt.seq a b => straightLine a && straightLine b
  | Stmt.inCluster _ b => straightLine b
  | Stmt.whileLoop _ _ => false
  | Stmt.suspend => false
  | _ => true

/-- Whether a statement is free of node mutation. -/
def mutationFree : Stmt → Bool
  | Stmt.seq a b => mutationFree a && mutationFree b
  | Stmt.inCluster _ b => mutationFree b
  | Stmt.whileLoop _ b => mutationFree b
  | Stmt.setLabel _ _ => false
  | _ => true

/-- Source lines 9-12: the `with Cluster("AWS Organization\n(Source)")` block. -/
def sourceCluster : Stmt :=
  Stmt.inCluster "AWS Organization\n(Source)" (block
    [ Stmt.declNode NodeId.org "Organizations"
        (StrExpr.lit "Organization Unit\n(SCP Policies)")
    , Stmt.declNode NodeId.new_account "OrganizationsAccount"
        (StrExpr.lit "New Account\n(Create/Join)")
    , Stmt.connect NodeId.new_account NodeId.org false
        (some "dashed") none (some (StrExpr.lit "Membership\nRequest")) ])

/-- Source lines 15-18: the `with Cluster("Event Collection")` block. -/
def collectionCluster : Stmt :=
  Stmt.inCluster "Event Collection" (block
    [ Stmt.declNode NodeId.cloudtrail "Cloudtrail"
        (StrExpr.lit "CloudTrail\n(Management Events)")
    , Stmt.declNode NodeId.s3 "S3"
        (StrExpr.lit "Log Storage\n(S3 Bucket)")
    , Stmt.connect NodeId.cloudtrail NodeId.s3 false
        (some "dashed") none none ])

/-- Source lines 21-24: the `with Cluster("Event Processing\n(Automation)")` block. -/
def processingCluster : Stmt :=
  Stmt.inCluster "Event Processing\n(Automation)" (block
    [ Stmt.declNode NodeId.event_bridge "Eventbridge"
        (StrExpr.lit "EventBridge\n(AcceptHandshake Rule)")
    , Stmt.declNode NodeId.lambda_func "Lambda"
        (StrExpr.lit "SCP Attachment\nLambda Function")
    , Stmt.connect NodeId.event_bridge NodeId.lambda_func true
        none (some "green4") (some (StrExpr.lit "Trigger")) ])

/-- The body of the `with Diagram(...)` block, source lines 8-33:
the three cluster blocks, the three numbered flow connections,
and the two invisible layout-helper edges. -/
def scriptBody : Stmt := block
  [ sourceCluster
  , collectionCluster
  , processingCluster
  , Stmt.connect NodeId.org NodeId.cloudtrail true
      none none (some (StrExpr.lit "1. Record\nOrg Events"))
  , Stmt.connect NodeId.cloudtrail NodeId.event_bridge true
      none none (some (StrExpr.lit "2. Forward\nAcceptHandshake"))
  , Stmt.connect NodeId.lambda_func NodeId.org true
      none (some "red") (some (StrExpr.lit "3. Apply SCP\nPolicies"))
  , Stmt.connect NodeId.new_account NodeId.cloudtrail false
      (some "invis") none none
  , Stmt.connect NodeId.s3 NodeId.event_bridge false
      (some "invis") none none ]

/-- The complete graph description handed to the rendering backend:
the `Diagram(...)` constructor arguments (title, show flag, direction)
together with the nodes, clusters and edges declared in the body. -/
structure DiagramSpec where
  title : String
  showView : Bool
  direction : String
  nodes : List NodeDecl
  clusters : List ClusterDecl
  edges : List EdgeDecl
deriving DecidableEq, Repr

/-- The graph description built by running a `with Diagram(...)` block:
its header constants plus the state produced by executing the body from
the empty state.  (A body that fails to run to completion contributes an
empty graph; the script's body is straight-line, so this branch is dead.) -/
def diagramOfBlock (i : ScriptInput) (t : String) (sv : Bool) (dir : String)
    (body : Stmt) : DiagramSpec :=
  match exec i none emptyState body with
  | some s => ⟨t, sv, dir, s.nodes, s.clusters, s.edges⟩
  | none => ⟨t, sv, dir, [], [], []⟩

/-- Top-level items of the Python file: `from ... import ...` lines,
a `with Diagram(...)` block (which renders on exit), or any other
plain statement. -/
inductive TopLevel
  | libraryUse (module : String) (names : List String)
  | withDiagram (title : String) (showView : Bool) (direction : String) (body : Stmt)
  | plain (s : Stmt)
deriving DecidableEq, Repr

/-- Is this top-level item a `with Diagram(...)` block (the only construct
that renders)? -/
def isWithDiagram : TopLevel → Bool
  | TopLevel.withDiagram _ _ _ _ => true
  | _ => false

/-- Is this top-level item a plain statement (neither a library use nor a
diagram block)? -/
def isPlainStmt : TopLevel → Bool
  | TopLevel.plain _ => true
  | _ => false

def diagramTitle : String := "Event-Driven SCP Attachment Architecture Diagram"

/-- The whole source file, top to bottom: the five library-use lines
(source lines 1-5) and the single `with Diagram(...)` block (lines 7-33).
Nothing follows the block. -/
def script : List TopLevel :=
  [ TopLevel.libraryUse "diagrams" ["Diagram", "Cluster", "Edge"]
  , TopLevel.libraryUse "diagrams.aws.storage" ["S3"]
  , TopLevel.libraryUse "diagrams.aws.management"
      ["Organizations", "Cloudtrail", "OrganizationsAccount"]
  , TopLevel.libraryUse "diagrams.aws.integration" ["Eventbridge"]
  , TopLevel.libraryUse "diagrams.aws.compute" ["Lambda"]
  , TopLevel.withDiagram diagramTitle false "LR" scriptBody ]

/-- An observable side effect of running the script. -/
inductive Effect
  | writeFile (name : String)
  | openViewer (name : String)
deriving DecidableEq, Repr

/-- Split a character list at spaces.  (Python's `str.split()` splits on
runs of any whitespace; the diagram title contains only single spaces, on
which the two agree.) -/
def splitWordsAux (cur : List Char) : List Char → List (List Char)
  | [] => [cur.reverse]
  | c :: rest =>
    if c = ' ' then cur.reverse :: splitWordsAux [] rest
    else splitWordsAux (c :: cur) rest

/-- Join word character-lists with an underscore between consecutive words. -/
def joinUnderscore : List (List Char) → List Char
  | [] => []
  | [w] => w
  | w :: rest => w ++ '_' :: joinUnderscore rest

/-- Modelled from the spec: the rendering backend (the external `diagrams`
library, not part of this repository) names "its sole output … a static
image file named after the diagram title"; the derivation joins the
whitespace-separated words of the title with underscores, lowercases the
result, and appends the default `png` extension. -/
def deriveFilename (title : String) : String :=
  ⟨(joinUnderscore (splitWordsAux [] title.data)).map Char.toLower ++ ".png".data⟩

/-- Modelled from the spec: rendering a diagram writes one image file named
after the title, and opens a viewer on it exactly when the show flag is set. -/
def renderEffects (d : DiagramSpec) : List Effect :=
  Effect.writeFile (deriveFilename d.title) ::
    (if d.showView then [Effect.openViewer (deriveFilename d.title)] else [])

/-- The observable side effects of one top-level item.  Library-use lines
and plain (non-rendering) statements have none; a `with Diagram` block
renders the diagram it built on exit. -/
def topEffects (i : ScriptInput) : TopLevel → List Effect
  | TopLevel.libraryUse _ _ => []
  | TopLevel.withDiagram t sv dir body => renderEffects (diagramOfBlock i t sv dir body)
  | TopLevel.plain _ => []

/-- All observable side effects of one run of the script on input `i`. -/
def runScript (i : ScriptInput) : List Effect := (script.map (topEffects i)).flatten

/-- An input in which nothing is provided: no arguments, no environment,
no persisted state. -/
def noInput : ScriptInput := ⟨[], [], []⟩

/-- The graph description the script builds (independent of input, as
proved below). -/
def scriptDiagram : DiagramSpec :=
  diagramOfBlock noInput diagramTitle false "LR" scriptBody

/-- Is this effect a file write? -/
def isFileWrite : Effect → Bool
  | Effect.writeFile _ => true
  | Effect.openViewer _ => false

/-- Is this effect the opening of a viewer? -/
def isViewerOpen : Effect → Bool
  | Effect.writeFile _ => false
  | Effect.openViewer _ => true

/-- The ids of the nodes the script declares, in declaration order. -/
def declaredIds : List NodeId := scriptDiagram.nodes.map NodeDecl.id

/-- The ordering label of an edge, when its label text starts with
"1.", "2." or "3.". -/
def orderLabel (e : EdgeDecl) : Option Nat :=
  match e.label with
  | none => none
  | some l =>
    if List.isPrefixOf ['1', '.'] l.data then some 1
    else if List.isPrefixOf ['2', '.'] l.data then some 2
    else if List.isPrefixOf ['3', '.'] l.data then some 3
    else none

/-- A label with its line breaks flattened to spaces. -/
def flatLabel (s : String) : String :=
  ⟨s.data.map fun c => if c = '\n' then ' ' else c⟩

/-- The (source, destination) pairs of the directed edges of the diagram,
in declaration order. -/
def directedPairs : List (NodeId × NodeId) :=
  (scriptDiagram.edges.filter fun e => e.directed).map fun e => (e.src, e.dst)

/-- The consecutive pairs of a node sequence read as a cycle:
each node paired with its successor, the last wrapping around to the first. -/
def cyclePairs : List NodeId → List (NodeId × NodeId)
  | [] => []
  | a :: rest => List.zip (a :: rest) (rest ++ [a])

/-- A string expression that reads no input evaluates the same under any
two ambient inputs. -/
theorem evalStr_const (l : StrExpr) (h : usesInput l = false)
    (i₁ i₂ : ScriptInput) : evalStr i₁ l = evalStr i₂ l := by
  cases l with
  | lit s => rfl
  | argvAt n => simp [usesInput] at h
  | envVar name => simp [usesInput] at h
  | fileRead path => simp [usesInput] at h

/-- Noninterference of the interpreter: a statement that reads no ambient
input produces the same result under any two inputs. -/
theorem exec_const (i₁ i₂ : ScriptInput) :
    ∀ p : Stmt, readsInput p = false →
      ∀ cl s, exec i₁ cl s p = exec i₂ cl s p := by
  intro p
  induction p with
  | skip => intro h cl s; rfl
  | seq a b iha ihb =>
    intro h cl s
    rw [readsInput, Bool.or_eq_false_iff] at h
    show (exec i₁ cl s a).bind (fun s' => exec i₁ cl s' b)
        = (exec i₂ cl s a).bind (fun s' => exec i₂ cl s' b)
    rw [iha h.1 cl s]
    cases exec i₂ cl s a with
    | none => rfl
    | some s' => simpa using ihb h.2 cl s'
  | declNode id icon label =>
    intro h cl s
    rw [readsInput] at h
    show some _ = some _
    rw [evalStr_const label h i₁ i₂]
  | connect a b d st co la =>
    intro h cl s
    cases la with
    | none => rfl
    | some l =>
      rw [readsInput] at h
      show some _ = some _
      simp [evalStr_const l h i₁ i₂]
  | inCluster name body ih =>
    intro h cl s
    rw [readsInput] at h
    exact ih h (some name) _
  | setLabel id l =>
    intro h cl s
    rw [readsInput] at h
    show some _ = some _
    rw [evalStr_const l h i₁ i₂]
  | whileLoop c body ih => intro h cl s; rfl
  | suspend => intro h cl s; rfl

/-- Totality of straight-line programs: a statement with no loops and no
suspension points always runs to completion, from any state. -/
theorem exec_straightLine (i : ScriptInput) :
    ∀ p : Stmt, straightLine p = true →
      ∀ cl s, ∃ s', exec i cl s p = some s' := by
  intro p
  induction p with
  | skip => intro h cl s; exact ⟨s, rfl⟩
  | seq a b iha ihb =>
    intro h cl s
    rw [straightLine, Bool.and_eq_true] at h
    obtain ⟨s', hs'⟩ := iha h.1 cl s
    obtain ⟨s'', hs''⟩ := ihb h.2 cl s'
    exact ⟨s'', by rw [exec, hs']; simpa using hs''⟩
  | declNode id icon label => intro h cl s; exact ⟨_, rfl⟩
  | connect a b d st co la => intro h cl s; exact ⟨_, rfl⟩
  | inCluster name body ih =>
    intro h cl s
    rw [straightLine] at h
    exact ih h (some name) _
  | setLabel id l => intro h cl s; exact ⟨_, rfl⟩
  | whileLoop c body ih => intro h cl s; rw [straightLine] at h; cases h
  | suspend => intro h cl s; rw [straightLine] at h; cases h

/-- The script body reads no ambient input, so the graph description built
by the `with Diagram` block is the same on every input. -/
theorem diagramOfBlock_const (i : ScriptInput) (t : String) (sv : Bool)
    (dir : String) :
    diagramOfBlock i t sv dir scriptBody = diagramOfBlock noInput t sv dir scriptBody := by
  have h : exec i none emptyState scriptBody = exec noInput none emptyState scriptBody :=
    exec_const i noInput scriptBody (by decide) none emptyState
  rw [diagramOfBlock, diagramOfBlock, h]

/-- On every input, one run of the script performs exactly one observable
side effect: writing the image file named after the diagram title. -/
theorem runScript_const (i : ScriptInput) :
    runScript i = [Effect.writeFile (deriveFilename diagramTitle)] := by
  show topEffects i (TopLevel.libraryUse "diagrams" ["Diagram", "Cluster", "Edge"]) ++ _ = _
  rw [topEffects]
  show topEffects i (TopLevel.libraryUse "diagrams.aws.storage" ["S3"]) ++ _ = _
  rw [topEffects]
  show topEffects i (TopLevel.libraryUse "diagrams.aws.management"
      ["Organizations", "Cloudtrail", "OrganizationsAccount"]) ++ _ = _
  rw [topEffects]
  show topEffects i (TopLevel.libraryUse "diagrams.aws.integration" ["Eventbridge"]) ++ _ = _
  rw [topEffects]
  show topEffects i (TopLevel.libraryUse "diagrams.aws.compute" ["Lambda"]) ++ _ = _
  rw [topEffects]
  show renderEffects (diagramOfBlock i diagramTitle false "LR" scriptBody) ++ [] = _
  rw [diagramOfBlock_const]
  rfl

/-- Claim C1: running the script produces exactly one output artifact, a
static image file whose filename is derived from the diagram title
"Event-Driven SCP Attachment Architecture Diagram"; the script reads no
command-line arguments, no environment variables, and no persisted state
of its own. -/
theorem c1_single_output_no_inputs :
    readsInput scriptBody = false ∧
    (∀ i : ScriptInput, runScript i = [Effect.writeFile (deriveFilename diagramTitle)]) ∧
    deriveFilename diagramTitle = "event-driven_scp_attachment_architecture_diagram.png" :=
  ⟨by decide, runScript_const, by decide⟩

/-- Claim C2: for every two executions of the script, the graph description
it constructs is identical (and it has the six nodes and three clusters),
because construction takes no inputs beyond literal constants. -/
theorem c2_deterministic_construction :
    (∀ i₁ i₂ : ScriptInput,
        diagramOfBlock i₁ diagramTitle false "LR" scriptBody
          = diagramOfBlock i₂ diagramTitle false "LR" scriptBody) ∧
    scriptDiagram.nodes.length = 6 ∧ scriptDiagram.clusters.length = 3 := by
  refine ⟨fun i₁ i₂ => ?_, by decide, by decide⟩
  rw [diagramOfBlock_const i₁, diagramOfBlock_const i₂]

/-- Claim C3: the graph is static and immutable: the script has exactly one
`with Diagram` block (so the graph is constructed once and rendered once,
on block exit), no top-level statement besides that block and the library
uses, and no statement of the block mutates a node, cluster or edge. -/
theorem c3_static_immutable :
    (script.filter isWithDiagram).length = 1 ∧
    script.filter isPlainStmt = [] ∧
    mutationFree scriptBody = true :=
  ⟨by decide, by decide, by decide⟩

/-- Claim C4: every edge connects exactly two distinct declared nodes, and
the ordering labels "1.", "2.", "3." appear on exactly three edges, in that
sequence: Organizations to CloudTrail, CloudTrail to EventBridge, and
Lambda to Organizations. -/
theorem c4_edges_and_order_labels :
    (scriptDiagram.edges.all fun e =>
        declaredIds.contains e.src && declaredIds.contains e.dst
          && (e.src != e.dst)) = true ∧
    (scriptDiagram.edges.filter fun e => (orderLabel e).isSome).map
        (fun e => (e.src, e.dst, orderLabel e))
      = [(NodeId.org, NodeId.cloudtrail, some 1),
         (NodeId.cloudtrail, NodeId.event_bridge, some 2),
         (NodeId.lambda_func, NodeId.org, some 3)] :=
  ⟨by decide, by decide⟩

/-- Claim C5: the script declares six nodes and three clusters, and every
one of the six nodes is a member of exactly one cluster (so no node appears
in two clusters). -/
theorem c5_cluster_membership :
    scriptDiagram.nodes.map NodeDecl.id
      = [NodeId.org, NodeId.new_account, NodeId.cloudtrail, NodeId.s3,
         NodeId.event_bridge, NodeId.lambda_func] ∧
    scriptDiagram.clusters.length = 3 ∧
    (declaredIds.all fun id =>
        (scriptDiagram.clusters.filter fun c => c.members.contains id).length == 1)
      = true :=
  ⟨by decide, by decide, by decide⟩

/-- Claim C6: the edges styled "invis" are exactly two — New Account to
CloudTrail and S3 to EventBridge — and both are undirected, unlabeled
layout hints carrying no color. -/
theorem c6_invisible_edges :
    scriptDiagram.edges.filter (fun e => e.style == some "invis")
      = [⟨NodeId.new_account, NodeId.cloudtrail, false, some "invis", none, none⟩,
         ⟨NodeId.s3, NodeId.event_bridge, false, some "invis", none, none⟩] := by
  decide

/-- Claim C7: on every input, the script's only observable side effect is
writing one image file; every effect of a run is a file write, and there is
exactly one. -/
theorem c7_single_file_effect :
    ∀ i : ScriptInput,
      runScript i
          = [Effect.writeFile "event-driven_scp_attachment_architecture_diagram.png"]
        ∧ (runScript i).all isFileWrite = true := by
  intro i
  rw [runScript_const i]
  exact ⟨by decide, by decide⟩

/-- Claim C8: the graph-construction logic is a straight-line sequence with
no loops and no suspension points, and therefore runs to completion on
every input, from every starting state. -/
theorem c8_straight_line_terminates :
    straightLine scriptBody = true ∧
    (∀ (i : ScriptInput) (cl : Option String) (s : GState),
        ∃ s', exec i cl s scriptBody = some s') :=
  ⟨by decide, fun i cl s => exec_straightLine i scriptBody (by decide) cl s⟩

/-- Claim C9: the Diagram is constructed with show=False and
direction="LR": on every input the run opens no viewer and writes exactly
one file, and the layout direction is fixed to left-to-right. -/
theorem c9_show_false_direction_lr :
    scriptDiagram.showView = false ∧
    scriptDiagram.direction = "LR" ∧
    (∀ i : ScriptInput, (runScript i).filter isViewerOpen = []) ∧
    (∀ i : ScriptInput, (runScript i).length = 1) := by
  refine ⟨by decide, by decide, fun i => ?_, fun i => ?_⟩ <;> rw [runScript_const i] <;> decide

/-- Claim C10: the four directed edges are exactly EventBridge to Lambda
("Trigger"), Organizations to CloudTrail ("1. Record Org Events"),
CloudTrail to EventBridge ("2. Forward AcceptHandshake") and Lambda to
Organizations ("3. Apply SCP Policies"); their endpoint pairs form the
single cycle Organizations, CloudTrail, EventBridge, Lambda; and all four
remaining edges of the diagram are undirected. -/
theorem c10_directed_cycle :
    ((scriptDiagram.edges.filter fun e => e.directed).map
        fun e => (e.src, e.dst, e.label.map flatLabel))
      = [(NodeId.event_bridge, NodeId.lambda_func, some "Trigger"),
         (NodeId.org, NodeId.cloudtrail, some "1. Record Org Events"),
         (NodeId.cloudtrail, NodeId.event_bridge, some "2. Forward AcceptHandshake"),
         (NodeId.lambda_func, NodeId.org, some "3. Apply SCP Policies")] ∧
    directedPairs.Perm
      (cyclePairs [NodeId.org, NodeId.cloudtrail, NodeId.event_bridge, NodeId.lambda_func]) ∧
    scriptDiagram.edges.length = 8 ∧
    (scriptDiagram.edges.filter fun e => !e.directed).length = 4 :=
  ⟨by decide, by decide, by decide, by decide⟩

end SCPDiag



